import Mathlib

/-!
# Verification of the mtrpacket asynchronous command multiplexer

A shallow embedding of the `mtrpacket` engine: the wire codec for the
line-oriented `mtr-packet` protocol, the command multiplexer (token
allocation, pending-request table, reader-loop dispatch, cancellation,
process-exit handling), the capability cache, and the probe facade.

The repository snapshot under verification contains the package's tests
(`test/test.py`), examples and packaging; the `mtrpacket` module itself is
not present, so the engine's operations are modelled from the
specification, faithful to its words, while everything the tests pin down
(the observable contract of `MtrPacket`, the mock daemon's behaviour, the
`MTR_PACKET` substitution) is translated from `test/test.py` directly.
-/

set_option autoImplicit false

namespace MtrPacket

/-! ## Error taxonomy

Modelled from the spec's §7 taxonomy.  `launchError` is the spec's
hypothesised distinct launch-failure class; the test suite
(`test/test.py`, `TestMissingExecutable`) asserts that a missing
executable in fact surfaces `ProcessError`, so both constructors are
present in order to state that distinction. -/

/-- Modelled from the spec: the error taxonomy of §7 (the `mtrpacket`
module defining the exception classes is not in the snapshot). -/
inductive MtrError where
  | processError
  | launchError
  | protocolError
  | hostResolveError
  | unsupportedFeature
deriving Repr, DecidableEq

/-! ## Data model -/

/-- MPLS label stack entry: four integers per label, with the
bottom-of-stack value interpreted as a flag (§3). -/
structure MplsLabel where
  label : Nat
  traffic_class : Nat
  bottom_of_stack : Bool
  ttl : Nat
deriving Repr, DecidableEq

/-- Modelled from the spec: the typed probe result of §3 — success flag,
result-kind string, optional responder address, optional round-trip time
in fractional milliseconds (exact rational, standing for the Python
float `micros / 1000.0`), MPLS label sequence. -/
structure ProbeResult where
  success : Bool
  result : String
  responder : Option String
  time_ms : Option ℚ
  mpls : List MplsLabel
deriving Repr, DecidableEq

/-- Command record: command name plus ordered key/value parameters (§3). -/
structure CommandRecord where
  name : String
  args : List (String × String)
deriving Repr, DecidableEq

/-! ## Low-level lexing

`test/test.py` tokenises lines with Python's `str.split(' ')` after
`strip()`, and the MPLS value is a comma-separated list.  These small
character-level helpers stand in for Python's string splitting and
integer conversion. -/

/-- Split a character list into atoms at runs of whitespace, like
Python's `line.split()`; `acc` holds the current atom, reversed. -/
def splitAtomsAux : List Char → List Char → List String
  | [], [] => []
  | [], acc => [String.mk acc.reverse]
  | c :: rest, acc =>
    if c = ' ' ∨ c = '\n' ∨ c = '\t' ∨ c = '\r' then
      match acc with
      | [] => splitAtomsAux rest []
      | _ => String.mk acc.reverse :: splitAtomsAux rest []
    else
      splitAtomsAux rest (c :: acc)

/-- The whitespace-separated atoms of a line. -/
def lineAtoms (s : String) : List String :=
  splitAtomsAux s.data []

/-- Split a character list at commas, like Python's `s.split(',')`. -/
def splitCommaAux : List Char → List Char → List String
  | [], acc => [String.mk acc.reverse]
  | c :: rest, acc =>
    if c = ',' then
      String.mk acc.reverse :: splitCommaAux rest []
    else
      splitCommaAux rest (c :: acc)

/-- The comma-separated fields of a string. -/
def commaFields (s : String) : List String :=
  splitCommaAux s.data []

/-- The numeric value of a decimal digit character. -/
def digitVal (c : Char) : Option Nat :=
  if c.isDigit then some (c.toNat - 48) else none

/-- Accumulate decimal digits into a number; any non-digit fails. -/
def parseNatAux : List Char → Nat → Option Nat
  | [], acc => some acc
  | c :: rest, acc =>
    match digitVal c with
    | some d => parseNatAux rest (acc * 10 + d)
    | none => none

/-- Parse a non-empty all-digits string as a natural number, like
Python's `int` applied to protocol fields (which are unsigned). -/
def parseNat (s : String) : Option Nat :=
  match s.data with
  | [] => none
  | cs => parseNatAux cs 0

/-! ## Wire codec -/

/-- Modelled from the spec: §4.2 encode —
`"<token> <command> <key1> <value1> ...\n"`. -/
def encodeCommand (token : Nat) (c : CommandRecord) : String :=
  String.intercalate " "
    (toString token :: c.name :: (c.args.flatMap fun kv => [kv.1, kv.2])) ++ "\n"

/-- Modelled from the spec: §4.2 MPLS decoding — group the flat integer
list into 4-tuples (label, traffic-class, bottom-of-stack ≠ 0, ttl), in
encounter order. -/
def groupMpls : List Nat → List MplsLabel
  | l :: tc :: bos :: t :: rest =>
    { label := l, traffic_class := tc, bottom_of_stack := bos != 0, ttl := t }
      :: groupMpls rest
  | _ => []

/-- Modelled from the spec: decode an MPLS comma-list value; fails if a
field is non-numeric. -/
def decodeMplsValue (s : String) : Option (List MplsLabel) :=
  ((commaFields s).mapM parseNat).map groupMpls

/-- Modelled from the spec: §4.2 decode of a reply body (the atoms after
the token).  Recognised kinds are `reply`, `no-reply`, `ttl-expired` and
`feature-support`; a recognised kind with the wrong field shape is a
malformed line (`none`, surfaced as ProtocolError); any other keyword is
preserved verbatim as an opaque result-kind. -/
def decodeReplyAtoms : List String → Option ProbeResult
  | ["reply", ipk, addr, "round-trip-time", ms] =>
    if ipk = "ip-4" ∨ ipk = "ip-6" then
      (parseNat ms).map fun micros =>
        { success := true, result := "reply", responder := some addr,
          time_ms := some ((micros : ℚ) / 1000), mpls := [] }
    else none
  | ["no-reply"] =>
    some { success := false, result := "no-reply", responder := none,
           time_ms := none, mpls := [] }
  | "ttl-expired" :: ipk :: addr :: rest =>
    if ipk = "ip-4" ∨ ipk = "ip-6" then
      match rest with
      | [] =>
        some { success := false, result := "ttl-expired",
               responder := some addr, time_ms := none, mpls := [] }
      | ["mpls", ml] =>
        (decodeMplsValue ml).map fun labels =>
          { success := false, result := "ttl-expired",
            responder := some addr, time_ms := none, mpls := labels }
      | _ => none
    else none
  | ["feature-support", "support", ok] =>
    some { success := ok == "ok", result := "feature-support",
           responder := none, time_ms := none, mpls := [] }
  | kind :: _ =>
    if kind = "reply" ∨ kind = "no-reply" ∨ kind = "ttl-expired" ∨
        kind = "feature-support" then
      none
    else
      some { success := false, result := kind, responder := none,
             time_ms := none, mpls := [] }
  | [] => none

/-- Modelled from the spec: §4.2 decode of a full reply line — the first
atom is the token, the rest is the kind-specific body. -/
def decodeReplyLine (line : String) : Option (Nat × ProbeResult) :=
  match lineAtoms line with
  | tokStr :: rest =>
    (parseNat tokStr).bind fun tok =>
      (decodeReplyAtoms rest).map fun r => (tok, r)
  | [] => none

/-! ## Command multiplexer

Modelled from the spec §4.3/§5.  A `ConnState` carries the token counter,
the pending table (the tokens whose `PendingRequest` is still registered;
tokens are the keys, and a token uniquely identifies its caller), the log
of resolved outcomes in resolution order (each entry `(token, outcome)`
is the single resolution of that token's caller slot), and the
`Open`/`Closed` status. -/

/-- The single resolution of a pending request's slot, as observed by the
caller that submitted it. -/
inductive Outcome where
  | ok (r : ProbeResult)
  | err (e : MtrError)
deriving Repr, DecidableEq

/-- Modelled from the spec: per-Connection multiplexer state (§4.3) —
token counter, pending-request table, resolved-slot log, status. -/
structure ConnState where
  nextToken : Nat
  pending : List Nat
  outcomes : List (Nat × Outcome)
  closed : Bool
deriving Repr, DecidableEq

/-- A freshly opened connection: the first allocated token is 1. -/
def initConn : ConnState :=
  { nextToken := 1, pending := [], outcomes := [], closed := false }

/-- Modelled from the spec: `submit` allocates the next token (strictly
increasing, starting at 1) and registers a PendingRequest under it; on a
closed connection no command can be submitted. -/
def submitReq (s : ConnState) : Option (ConnState × Nat) :=
  if s.closed then none
  else
    some ({ nextToken := s.nextToken + 1, pending := s.pending ++ [s.nextToken],
            outcomes := s.outcomes, closed := s.closed }, s.nextToken)

/-- Run `k` successive submissions, returning the final state and the
tokens allocated, in order. -/
def runSubmits : Nat → ConnState → ConnState × List Nat
  | 0, s => (s, [])
  | k + 1, s =>
    match submitReq s with
    | none => (s, [])
    | some (s1, t) =>
      let p := runSubmits k s1
      (p.1, t :: p.2)

/-- Modelled from the spec: one reader-loop dispatch step (§4.3) — a
decoded reply line carrying `tok` resolves the pending request registered
under `tok` and removes it from the table; a line whose token is absent
(already cancelled or unknown) is discarded. -/
def readerStep (s : ConnState) (tok : Nat) (r : ProbeResult) : ConnState :=
  if tok ∈ s.pending then
    { nextToken := s.nextToken, pending := s.pending.erase tok,
      outcomes := s.outcomes ++ [(tok, Outcome.ok r)], closed := s.closed }
  else s

/-- The reader loop over a sequence of decoded reply lines, dispatched
strictly in the order the process emits them. -/
def readerLoop (s : ConnState) : List (Nat × ProbeResult) → ConnState
  | [] => s
  | (t, r) :: rest => readerLoop (readerStep s t r) rest

/-- Modelled from the spec: `cancel` removes the PendingRequest from the
table if still present; nothing else changes (§4.3). -/
def cancelReq (s : ConnState) (tok : Nat) : ConnState :=
  { nextToken := s.nextToken, pending := s.pending.erase tok,
    outcomes := s.outcomes, closed := s.closed }

/-- Modelled from the spec: on end-of-stream or process exit, every
remaining PendingRequest is resolved with a ProcessError failure and the
Connection transitions to `Closed` (§4.3). -/
def processExit (s : ConnState) : ConnState :=
  { nextToken := s.nextToken, pending := [],
    outcomes := s.outcomes ++ s.pending.map (fun t => (t, Outcome.err MtrError.processError)),
    closed := true }

/-! ## Probe facade -/

/-- Address family of a resolved probe target. -/
inductive IpFamily where
  | v4
  | v6
deriving Repr, DecidableEq

/-- The wire key carrying the target address for each family (§4.5). -/
def ipKey : IpFamily → String
  | IpFamily.v4 => "ip-4"
  | IpFamily.v6 => "ip-6"

/-- The wire key carrying the local source address for each family. -/
def localIpKey : IpFamily → String
  | IpFamily.v4 => "local-ip-4"
  | IpFamily.v6 => "local-ip-6"

/-- Modelled from the spec: §4.5 — build a `send-probe` CommandRecord
with family-specific key names matching the resolved family: the target
under `ip-4`/`ip-6`, an optional local source address under
`local-ip-4`/`local-ip-6`, then the remaining options. -/
def buildProbeCommand (fam : IpFamily) (addr : String) (localIp : Option String)
    (extra : List (String × String)) : CommandRecord :=
  { name := "send-probe",
    args := (ipKey fam, addr) ::
      ((match localIp with
        | some l => [(localIpKey fam, l)]
        | none => []) ++ extra) }

/-! ## Capability cache -/

/-- Modelled from the spec: the `check-support` capability query naming
an optional parameter (§4.4). -/
def checkSupportCmd (p : String) : CommandRecord :=
  { name := "check-support", args := [("feature", p)] }

/-- Capability-cache view of a connection: the per-connection memo of
which optional parameters the daemon supports, plus the log of command
records written to the process, in order. -/
structure CapConn where
  cache : List (String × Bool)
  sent : List CommandRecord
deriving Repr, DecidableEq

/-- Modelled from the spec: `ensure_supported` (§4.4) — if the parameter
is cached, no command is sent and a cached `false` fails with
UnsupportedFeatureError; otherwise a single `check-support` command is
submitted, the daemon's answer is cached, and a `false` answer fails. -/
def ensureSupported (daemon : String → Bool) (p : String) (s : CapConn) :
    CapConn × Except MtrError Unit :=
  match s.cache.lookup p with
  | some true => (s, Except.ok ())
  | some false => (s, Except.error MtrError.unsupportedFeature)
  | none =>
    let sup := daemon p
    ({ cache := (p, sup) :: s.cache, sent := s.sent ++ [checkSupportCmd p] },
      if sup then Except.ok () else Except.error MtrError.unsupportedFeature)

/-- Modelled from the spec: the probe path for one optional parameter —
`ensure_supported` runs before the command is submitted, so on failure
the `send-probe` command referencing the parameter is never sent (§4.4,
§4.5). -/
def probeWithOption (daemon : String → Bool) (fam : IpFamily) (addr : String)
    (optName optVal : String) (s : CapConn) : CapConn × Except MtrError Unit :=
  match ensureSupported daemon optName s with
  | (s1, Except.error e) => (s1, Except.error e)
  | (s1, Except.ok _) =>
    ({ cache := s1.cache,
       sent := s1.sent ++ [buildProbeCommand fam addr none [(optName, optVal)]] },
      Except.ok ())

/-! ## Process launch

`test/test.py` (`MtrPacketSubstitute`, `TestProcExit`,
`TestMissingExecutable`) pins the launch contract: the executable name is
taken from the `MTR_PACKET` environment variable when set, and an
executable that cannot be started surfaces `mtrpacket.ProcessError` from
opening the connection (the test at test.py:80-82 asserts
`ProcessError`, not a distinct launch-error class). -/

/-- The executable name a Connection launches: the value of the
`MTR_PACKET` environment variable when set, the default `mtr-packet`
otherwise (spec §6; exercised by `MtrPacketSubstitute` in test.py). -/
def launchedExecutable (mtrPacketEnv : Option String) : String :=
  mtrPacketEnv.getD "mtr-packet"

/-- Entering `MtrPacketSubstitute` (test.py:42-48): returns the new
`MTR_PACKET` value together with the saved previous value. -/
def substituteEnter (substitute : String) (env : Option String) :
    Option String × Option String :=
  (some substitute, env)

/-- Opening a connection: launches `launchedExecutable env`; when that
executable cannot be started the open fails with ProcessError
(test.py `TestMissingExecutable`), and no command line has been sent.
Returns the open result together with the command lines written during
the open (none are). -/
def openConnection (env : Option String) (canStart : String → Bool) :
    Except MtrError ConnState × List String :=
  if canStart (launchedExecutable env) then
    (Except.ok initConn, [])
  else
    (Except.error MtrError.processError, [])

/-! ## The mock daemon of the test suite

`test/test.py` substitutes a socket server for `mtr-packet`; its
`make_command` parses each command line and `gen_handle_command` echoes
the command's token in front of each canned reply body. -/

/-- Pair up consecutive atoms as key/value parameters, in encounter
order, as the loop at test.py:22-25 does. -/
def pairArgs : List String → List (String × String)
  | k :: v :: rest => (k, v) :: pairArgs rest
  | _ => []

/-- A parsed command, as the test's `Command` named tuple: token atom,
command name, key/value arguments. -/
structure TestCommand where
  token : String
  command : String
  args : List (String × String)
deriving Repr, DecidableEq

/-- `make_command` (test.py:12-27): split the line into atoms; the first
is the token, the second the command name, the rest pair up as
arguments (the Python version stores them in a dict in encounter
order; fewer than two atoms is an IndexError, modelled as `none`). -/
def make_command (line : String) : Option TestCommand :=
  match lineAtoms line with
  | tok :: cmd :: rest => some { token := tok, command := cmd, args := pairArgs rest }
  | _ => none

/-- The mock daemon's reply line (test.py:133,140): the received
command's token, a space, the canned reply body, a newline. -/
def mockReply (c : TestCommand) (body : String) : String :=
  c.token ++ " " ++ body ++ "\n"

/-- A sample decoded result, used by the concrete witnesses below. -/
def sampleResult : ProbeResult :=
  { success := false, result := "no-reply", responder := none,
    time_ms := none, mpls := [] }

/-! ## Theorems -/

/-- Submission bookkeeping: from any open state, `k` submissions allocate
exactly the tokens `nextToken, nextToken+1, …`, advance the counter by
`k`, and leave the connection open. -/
theorem runSubmits_spec (k : Nat) (s : ConnState) (h : s.closed = false) :
    (runSubmits k s).2 = List.range' s.nextToken k ∧
    (runSubmits k s).1.nextToken = s.nextToken + k ∧
    (runSubmits k s).1.closed = false := by
  induction k generalizing s with
  | zero => simp [runSubmits, h]
  | succ k ih =>
    have hsub : submitReq s =
        some (⟨s.nextToken + 1, s.pending ++ [s.nextToken], s.outcomes, s.closed⟩,
          s.nextToken) := by
      simp [submitReq, h]
    obtain ⟨h1, h2, h3⟩ :=
      ih ⟨s.nextToken + 1, s.pending ++ [s.nextToken], s.outcomes, s.closed⟩ h
    refine ⟨?_, ?_, ?_⟩
    · simp [runSubmits, hsub, h1, List.range'_succ]
    · simp [runSubmits, hsub, h2]; omega
    · simp [runSubmits, hsub, h3]

/-- The mock daemon of the test suite (`make_command`,
`gen_handle_command`) parses a command line and echoes its token in front
of the canned reply body, so the decoded reply carries the submitted
command's token. -/
theorem mock_daemon_token_roundtrip :
    make_command "7 send-probe ip-4 8.8.8.8 bit-pattern 42\n" =
      some { token := "7", command := "send-probe",
             args := [("ip-4", "8.8.8.8"), ("bit-pattern", "42")] } ∧
    mockReply { token := "7", command := "send-probe", args := [] } "no-reply" =
      "7 no-reply\n" ∧
    decodeReplyLine
        (mockReply { token := "7", command := "send-probe", args := [] } "no-reply") =
      some (7, sampleResult) := by
  refine ⟨by decide, by decide, by decide⟩

/-- C1: a reply line resolves exactly the pending request whose token it
carries: the matching caller's slot is resolved with the reply and
deregistered, every other token's registration is untouched, a line with
an unknown token is discarded, and the same holds when another token's
reply overtakes it (out-of-order daemon responses), for every state, so
for every interleaving of submissions. -/
theorem reply_dispatched_to_matching_token (s : ConnState) (tok : Nat) (r : ProbeResult)
    (hmem : tok ∈ s.pending) (hnd : s.pending.Nodup) :
    (readerStep s tok r).outcomes = s.outcomes ++ [(tok, Outcome.ok r)] ∧
    tok ∉ (readerStep s tok r).pending ∧
    (∀ t, t ≠ tok → ((t ∈ (readerStep s tok r).pending) ↔ t ∈ s.pending)) ∧
    (∀ t r2, t ∉ s.pending → readerStep s t r2 = s) ∧
    (∀ t2 r2, t2 ≠ tok → t2 ∈ s.pending →
      (readerStep (readerStep s t2 r2) tok r).outcomes =
        s.outcomes ++ [(t2, Outcome.ok r2), (tok, Outcome.ok r)]) := by
  refine ⟨?_, ?_, ?_, ?_, ?_⟩
  · simp [readerStep, hmem]
  · simp [readerStep, hmem]
    exact hnd.not_mem_erase
  · intro t ht
    simp [readerStep, hmem]
    exact List.mem_erase_of_ne ht
  · intro t r2 hnot
    simp [readerStep, hnot]
  · intro t2 r2 hne hmem2
    have hstep : readerStep s t2 r2 =
        { nextToken := s.nextToken, pending := s.pending.erase t2,
          outcomes := s.outcomes ++ [(t2, Outcome.ok r2)], closed := s.closed } := by
      simp [readerStep, hmem2]
    have hmem' : tok ∈ s.pending.erase t2 :=
      (List.mem_erase_of_ne (fun h => hne h.symm)).2 hmem
    rw [hstep]
    simp [readerStep, hmem']

/-- Witness for C1: on a connection with tokens 1 and 2 outstanding, the
reply carrying token 2 resolves exactly token 2's request. -/
theorem reply_dispatched_to_matching_token_witness :
    (readerStep { nextToken := 3, pending := [1, 2], outcomes := [], closed := false }
        2 sampleResult).outcomes = [(2, Outcome.ok sampleResult)] :=
  (reply_dispatched_to_matching_token
    { nextToken := 3, pending := [1, 2], outcomes := [], closed := false }
    2 sampleResult (by decide) (by decide)).1

/-- C2: when the process exits (or its output reaches end-of-stream),
every outstanding request is resolved with ProcessError, the pending
table empties (no request waits forever), the connection transitions to
Closed, and no further submission is possible. -/
theorem process_exit_fails_all_outstanding (s : ConnState) :
    (processExit s).pending = [] ∧
    (processExit s).closed = true ∧
    submitReq (processExit s) = none ∧
    (∀ t, t ∈ s.pending →
      (t, Outcome.err MtrError.processError) ∈ (processExit s).outcomes) := by
  refine ⟨rfl, rfl, rfl, ?_⟩
  intro t ht
  simp only [processExit]
  exact List.mem_append_right _ (List.mem_map_of_mem _ ht)

/-- Witness for C2: token 5, outstanding when the process exits, is
resolved with ProcessError. -/
theorem process_exit_fails_all_outstanding_witness :
    (5, Outcome.err MtrError.processError) ∈
      (processExit
        { nextToken := 10, pending := [5, 9], outcomes := [], closed := false }).outcomes :=
  (process_exit_fails_all_outstanding
    { nextToken := 10, pending := [5, 9], outcomes := [], closed := false }).2.2.2
    5 (by decide)

/-- C3 counterexample: with `MTR_PACKET` set to the missing executable
`mtr-packet-missing`, opening the connection does not fail with
LaunchError — `test/test.py` (TestMissingExecutable) asserts the raised
exception is `mtrpacket.ProcessError`. -/
theorem missing_executable_not_launchError :
    ¬ (openConnection (some "mtr-packet-missing")
          (fun e => e != "mtr-packet-missing")).1 =
        Except.error MtrError.launchError := by
  intro h
  have h2 : (openConnection (some "mtr-packet-missing")
      (fun e => e != "mtr-packet-missing")).1 =
        Except.error MtrError.processError := rfl
  rw [h2] at h
  exact absurd (Except.error.inj h) (by decide)

/-- C3 (amended): when the configured daemon executable cannot be
started, opening the Connection fails with ProcessError, and this
failure occurs before any command is sent (the sent-line log is empty). -/
theorem missing_executable_fails_open_processError (env : Option String)
    (canStart : String → Bool) (h : canStart (launchedExecutable env) = false) :
    openConnection env canStart = (Except.error MtrError.processError, []) := by
  simp [openConnection, h]

/-- Witness for C3 (amended): the missing-executable case of the test
suite fails the open with ProcessError, with no command sent. -/
theorem missing_executable_fails_open_processError_witness :
    openConnection (some "mtr-packet-missing") (fun e => e != "mtr-packet-missing") =
      (Except.error MtrError.processError, []) :=
  missing_executable_fails_open_processError (some "mtr-packet-missing")
    (fun e => e != "mtr-packet-missing") (by decide)

/-- C4: a `reply` body with `round-trip-time <micros>` decodes to a
successful ProbeResult whose responder is the given address and whose
time is exactly micros/1000 milliseconds — in particular `1000` gives
1.0 ms and `500` gives 0.5 ms — and a `no-reply` body decodes to
success = false, kind `no-reply`, no responder and no time. -/
theorem probe_reply_decode_times_exact (ipk addr ms : String) (micros : Nat)
    (hk : ipk = "ip-4" ∨ ipk = "ip-6") (hm : parseNat ms = some micros) :
    decodeReplyAtoms ["reply", ipk, addr, "round-trip-time", ms] =
      some { success := true, result := "reply", responder := some addr,
             time_ms := some ((micros : ℚ) / 1000), mpls := [] } ∧
    decodeReplyLine "7 reply ip-4 8.8.4.4 round-trip-time 1000" =
      some (7, { success := true, result := "reply", responder := some "8.8.4.4",
                 time_ms := some 1, mpls := [] }) ∧
    decodeReplyLine "8 reply ip-4 127.0.1.1 round-trip-time 500" =
      some (8, { success := true, result := "reply", responder := some "127.0.1.1",
                 time_ms := some (1 / 2 : ℚ), mpls := [] }) ∧
    decodeReplyAtoms ["no-reply"] =
      some { success := false, result := "no-reply", responder := none,
             time_ms := none, mpls := [] } := by
  refine ⟨?_, ?_, ?_, rfl⟩
  · rcases hk with hk | hk <;> subst hk <;> simp [decodeReplyAtoms, hm]
  · have h1 : decodeReplyLine "7 reply ip-4 8.8.4.4 round-trip-time 1000" =
        some (7, { success := true, result := "reply", responder := some "8.8.4.4",
                   time_ms := some (((1000 : Nat) : ℚ) / 1000), mpls := [] }) := rfl
    rw [h1]
    norm_num
  · have h2 : decodeReplyLine "8 reply ip-4 127.0.1.1 round-trip-time 500" =
        some (8, { success := true, result := "reply", responder := some "127.0.1.1",
                   time_ms := some (((500 : Nat) : ℚ) / 1000), mpls := [] }) := rfl
    rw [h2]
    norm_num

/-- Witness for C4: the reply body of test.py:149 decodes to a
successful result with responder 8.8.4.4 and 1000 µs of round-trip
time. -/
theorem probe_reply_decode_times_exact_witness :
    decodeReplyAtoms ["reply", "ip-4", "8.8.4.4", "round-trip-time", "1000"] =
      some { success := true, result := "reply", responder := some "8.8.4.4",
             time_ms := some (((1000 : Nat) : ℚ) / 1000), mpls := [] } :=
  (probe_reply_decode_times_exact "ip-4" "8.8.4.4" "1000" 1000 (Or.inl rfl) rfl).1

/-- C5: MPLS decoding groups the flat integer list into consecutive
4-tuples (label, traffic-class, bottom-of-stack ≠ 0, ttl) in encounter
order; the list `1,2,0,3,4,5,1,6` decodes to exactly the labels
(1, 2, false, 3) and (4, 5, true, 6). -/
theorem mpls_decode_groups_of_four (l tc bos t : Nat) (rest : List Nat) :
    groupMpls (l :: tc :: bos :: t :: rest) =
      { label := l, traffic_class := tc, bottom_of_stack := bos != 0, ttl := t }
        :: groupMpls rest ∧
    groupMpls [] = [] ∧
    decodeMplsValue "1,2,0,3,4,5,1,6" =
      some [{ label := 1, traffic_class := 2, bottom_of_stack := false, ttl := 3 },
            { label := 4, traffic_class := 5, bottom_of_stack := true, ttl := 6 }] :=
  ⟨rfl, rfl, by decide⟩

/-- C7: every built probe command is a `send-probe` record whose target
address travels under `ip-4` for an IPv4 target and `ip-6` for an IPv6
target, and whose optional local source address travels under
`local-ip-4`/`local-ip-6` matching the same family. -/
theorem probe_command_family_keys (addr l : String) (extra : List (String × String)) :
    (∀ fam lip, (buildProbeCommand fam addr lip extra).name = "send-probe") ∧
    (buildProbeCommand IpFamily.v4 addr (some l) extra).args =
      ("ip-4", addr) :: ("local-ip-4", l) :: extra ∧
    (buildProbeCommand IpFamily.v6 addr (some l) extra).args =
      ("ip-6", addr) :: ("local-ip-6", l) :: extra ∧
    (buildProbeCommand IpFamily.v4 addr none extra).args = ("ip-4", addr) :: extra ∧
    (buildProbeCommand IpFamily.v6 addr none extra).args = ("ip-6", addr) :: extra :=
  ⟨fun _ _ => rfl, rfl, rfl, rfl, rfl⟩

/-- C6: cancelling a request removes only that request — outcomes,
status and every other token's registration are unchanged — the
later-arriving reply for the cancelled token is discarded without any
observable effect, the reader loop simply continues past it, and every
other token's dispatch resolves exactly as it would have without the
cancellation. -/
theorem cancel_removes_only_cancelled (s : ConnState) (tok : Nat) (r : ProbeResult)
    (hnd : s.pending.Nodup) :
    (cancelReq s tok).outcomes = s.outcomes ∧
    (cancelReq s tok).closed = s.closed ∧
    (∀ t, t ≠ tok → ((t ∈ (cancelReq s tok).pending) ↔ t ∈ s.pending)) ∧
    readerStep (cancelReq s tok) tok r = cancelReq s tok ∧
    (∀ rest, readerLoop (cancelReq s tok) ((tok, r) :: rest) =
      readerLoop (cancelReq s tok) rest) ∧
    (∀ t r2, t ≠ tok →
      (readerStep (cancelReq s tok) t r2).outcomes = (readerStep s t r2).outcomes) := by
  have hout : tok ∉ (cancelReq s tok).pending := by
    simp only [cancelReq]
    exact hnd.not_mem_erase
  have hskip : readerStep (cancelReq s tok) tok r = cancelReq s tok := by
    simp [readerStep, hout]
  refine ⟨rfl, rfl, ?_, hskip, ?_, ?_⟩
  · intro t ht
    simp only [cancelReq]
    exact List.mem_erase_of_ne ht
  · intro rest
    simp only [readerLoop, hskip]
  · intro t r2 ht
    by_cases hmem : t ∈ s.pending
    · have hmem' : t ∈ s.pending.erase tok := (List.mem_erase_of_ne ht).2 hmem
      simp [readerStep, cancelReq, hmem, hmem']
    · have hmem' : t ∉ s.pending.erase tok :=
        fun hc => hmem ((List.mem_erase_of_ne ht).1 hc)
      simp [readerStep, cancelReq, hmem, hmem']

/-- Witness for C6: after cancelling token 2, its late reply leaves the
state exactly as it was. -/
theorem cancel_removes_only_cancelled_witness :
    readerStep
      (cancelReq
        { nextToken := 4, pending := [1, 2, 3], outcomes := [], closed := false } 2)
      2 sampleResult =
      cancelReq
        { nextToken := 4, pending := [1, 2, 3], outcomes := [], closed := false } 2 :=
  (cancel_removes_only_cancelled
    { nextToken := 4, pending := [1, 2, 3], outcomes := [], closed := false }
    2 sampleResult (by decide)).2.2.2.1

/-- C8: within one Connection's lifetime the tokens allocated by submit
are exactly 1, 2, …, k — strictly increasing, starting at 1 — and the
tokens of any further batch of submissions never collide with them (no
token is ever reused). -/
theorem tokens_strictly_increasing_never_reused (k k2 : Nat) :
    (runSubmits k initConn).2 = List.range' 1 k ∧
    (runSubmits k initConn).2.Pairwise (· < ·) ∧
    ((runSubmits k initConn).2 ++ (runSubmits k2 (runSubmits k initConn).1).2).Nodup := by
  obtain ⟨h1, h2, h3⟩ := runSubmits_spec k initConn rfl
  obtain ⟨g1, g2, g3⟩ := runSubmits_spec k2 _ h3
  rw [show initConn.nextToken = 1 from rfl] at h1 h2
  refine ⟨h1, ?_, ?_⟩
  · rw [h1]
    exact List.pairwise_lt_range' 1 k 1 (by omega)
  · rw [h1, g1, h2]
    have h0 := List.range'_append 1 k k2 1
    simp only [one_mul] at h0
    rw [h0]
    exact (List.pairwise_lt_range' 1 (k2 + k) 1 (by omega)).imp fun hab => Nat.ne_of_lt hab

/-- C9: an optional parameter whose cached capability is `false` fails
the probe with UnsupportedFeatureError before anything is sent — the
state is unchanged, so no command referencing the parameter ever reaches
the daemon; an uncached parameter causes exactly one `check-support`
query to be sent; a second `ensure_supported` for the same parameter
sends nothing further (at most one query per parameter); and after any
`ensure_supported` the parameter's capability stays cached. -/
theorem unsupported_feature_checked_before_send (daemon : String → Bool)
    (fam : IpFamily) (addr optName optVal p : String) (s : CapConn)
    (hfalse : s.cache.lookup optName = some false) :
    probeWithOption daemon fam addr optName optVal s =
      (s, Except.error MtrError.unsupportedFeature) ∧
    (∀ s2 : CapConn, s2.cache.lookup p = none →
      (ensureSupported daemon p s2).1.sent = s2.sent ++ [checkSupportCmd p]) ∧
    (∀ s2 : CapConn,
      (ensureSupported daemon p ((ensureSupported daemon p s2).1)).1.sent =
        ((ensureSupported daemon p s2).1).sent) ∧
    (∀ s2 : CapConn, ((ensureSupported daemon p s2).1).cache.lookup p ≠ none) := by
  refine ⟨?_, ?_, ?_, ?_⟩
  · simp [probeWithOption, ensureSupported, hfalse]
  · intro s2 hnone
    simp [ensureSupported, hnone]
  · intro s2
    rcases hc : s2.cache.lookup p with _ | b
    · cases hd : daemon p <;> simp [ensureSupported, hc, hd]
    · cases b <;> simp [ensureSupported, hc]
  · intro s2
    rcases hc : s2.cache.lookup p with _ | b
    · cases hd : daemon p <;> simp [ensureSupported, hc, hd]
    · cases b <;> simp [ensureSupported, hc]

/-- Witness for C9: with `ttl` cached as unsupported, a probe using
`ttl` fails with UnsupportedFeatureError and sends nothing. -/
theorem unsupported_feature_checked_before_send_witness :
    probeWithOption (fun _ => true) IpFamily.v4 "8.8.8.8" "ttl" "4"
        { cache := [("ttl", false)], sent := [] } =
      ({ cache := [("ttl", false)], sent := [] },
        Except.error MtrError.unsupportedFeature) :=
  (unsupported_feature_checked_before_send (fun _ => true) IpFamily.v4 "8.8.8.8"
    "ttl" "4" "x" { cache := [("ttl", false)], sent := [] } (by decide)).1

/-- C10: the executable a Connection launches is the value of the
`MTR_PACKET` environment variable whenever one is set — in particular
the value installed by the test suite's `MtrPacketSubstitute` — and the
default `mtr-packet` otherwise. -/
theorem mtr_packet_env_overrides_executable (sub : String) (env : Option String) :
    launchedExecutable (substituteEnter sub env).1 = sub ∧
    launchedExecutable (some sub) = sub ∧
    launchedExecutable none = "mtr-packet" :=
  ⟨rfl, rfl, rfl⟩

end MtrPacket
